import Mathlib

/-!
Verification of the eco-monitor measurement ingestion pipeline.

This file gives a shallow embedding, in Lean 4, of the core ingestion
pipeline of the repository: the HTTP fetch client, the time-series
extractor, the value normalizer, the persistence adapter
(source/location/measurement creation) and the fetcher orchestrator.
Numeric values are modelled as rationals, datetimes as abstract ticks
(natural numbers), Python dict-based records as association lists of
dynamic values, and the relational store as lists of rows with explicit
serial counters.  Fallible steps return Except / Option, mirroring the
try/except structure of the source.

The source uses Cyrillic identifiers, which Lean's lexer does not accept;
every definition keeps the source name in Latin transliteration, e.g.
`vypolnit_zapros`    for the HTTP client of base_fetcher.py,
`sohranit_izmereniya` for the batch persistence function,
`sozdat_izmerenie`   for the measurement-insert function of
measurements_logic.py, and so on; the doc comment of each definition
names the embedded source function.
-/

namespace EcoMonitor

/-! ## Dynamic Python values and records

Measurement records in the source are Python dicts with heterogeneous
values (strings, floats, datetimes, None).  `PyVal` models that dynamic
value space; a record is an association list keyed by strings. -/

/-- A dynamic Python value as stored in a measurement record dict. -/
inductive PyVal where
  | num (q : ℚ)
  | str (s : String)
  | moment (t : ℕ)
  | pyNone
deriving DecidableEq, Repr

/-- A measurement record: a Python dict, modelled as an association list. -/
abbrev Zapis := List (String × PyVal)

/-- The exception class raised by a failing Python primitive: `float()` raises
`ValueError` on an unparsable string and `TypeError` on None/datetime. -/
inductive PyError where
  | valueError (msg : String)
  | typeError (msg : String)
deriving DecidableEq, Repr

/-- Digit sequence to a natural number; fails on the empty sequence or a
non-digit character.  Helper for the decimal fragment of `float()`. -/
def parseNat : List Char → Option ℕ
  | [] => none
  | cs => cs.foldlM (fun acc c => if c.isDigit then some (acc * 10 + (c.toNat - 48)) else none) 0

/-- Decimal-string fragment of Python `float()`: an optional minus sign,
digits, and an optional fractional part. -/
def parseDecimal (s : String) : Option ℚ :=
  let neg := s.startsWith "-"
  let body := if neg then s.drop 1 else s
  match body.splitOn "." with
  | [whole] => (parseNat whole.data).map (fun n => if neg then -(n : ℚ) else (n : ℚ))
  | [whole, frac] =>
    match parseNat whole.data, parseNat frac.data with
    | some w, some f =>
      let q : ℚ := (w : ℚ) + (f : ℚ) / ((10 : ℚ) ^ frac.length)
      some (if neg then -q else q)
    | _, _ => none
  | _ => none

/-- Python `float(value)`: numbers pass through, decimal strings are parsed
(`ValueError` otherwise), None and datetime raise `TypeError`. -/
def py_float : PyVal → Except PyError ℚ
  | .num q => .ok q
  | .str s =>
    match parseDecimal s with
    | some q => .ok q
    | none => .error (.valueError ("could not convert string to float: " ++ s))
  | .moment _ => .error (.typeError "float() argument must be a string or a real number, not datetime")
  | .pyNone => .error (.typeError "float() argument must be a string or a real number, not NoneType")

/-- Python truthiness of a dynamic value, as used by `if категория:` and
`if not parameter_id:` in the source. -/
def py_truthy : PyVal → Bool
  | .num q => decide (q ≠ 0)
  | .str s => !s.isEmpty
  | .moment _ => true
  | .pyNone => false

/-- Display form of a dynamic value, used when the source interpolates a
record field into an error message. -/
def pokazat_pyval : PyVal → String
  | .num q => toString q
  | .str s => s
  | .moment t => "datetime(" ++ toString t ++ ")"
  | .pyNone => "None"

/-! ## Value normalizer (`нормализовать_значение`,
`src/data_sources/weather/open_meteo_weather_fetcher.py` lines 76-111)

The wind-direction branch is a pair of while loops: add 360 while the
value is negative, then subtract 360 while it is at least 360.  Each loop
is embedded as a well-founded recursion. -/

/-- The `while значение < 0: значение += 360` loop of the normalizer. -/
def dobavit360 (v : ℚ) : ℚ :=
  if v < 0 then dobavit360 (v + 360) else v
termination_by (⌈(-v) / 360⌉).toNat
decreasing_by
  have hdiv : ((-(v + 360)) / 360 : ℚ) = (-v) / 360 - 1 := by ring
  rw [hdiv, Int.ceil_sub_one]
  have hpos : (0 : ℤ) < ⌈(-v) / 360⌉ :=
    Int.ceil_pos.mpr (div_pos (by linarith) (by norm_num))
  omega

/-- The `while значение >= 360: значение -= 360` loop of the normalizer. -/
def vychest360 (v : ℚ) : ℚ :=
  if 360 ≤ v then vychest360 (v - 360) else v
termination_by (⌈v / 360⌉).toNat
decreasing_by
  have hdiv : ((v - 360) / 360 : ℚ) = v / 360 - 1 := by ring
  rw [hdiv, Int.ceil_sub_one]
  have hpos : (0 : ℤ) < ⌈v / 360⌉ :=
    Int.ceil_pos.mpr (div_pos (by linarith) (by norm_num))
  omega

/-- `нормализовать_значение(значение, параметр, db_param)`: temperature is
passed through, wind direction is wrapped into `[0, 360)` by the two while
loops, every other parameter has negative values clamped to zero. -/
def normalizovat_znachenie (znachenie : ℚ) (parametr : String) (_db_param : String) : ℚ :=
  if parametr = "temperature_2m" then znachenie
  else if parametr = "wind_direction_10m" then vychest360 (dobavit360 znachenie)
  else if znachenie < 0 then 0
  else znachenie

/-! ## HTTP fetch client (`выполнить_запрос`,
`src/data_sources/base_fetcher.py` lines 15-86)

The outcome of the outbound request is modelled as an inductive: a
response with a status code and a JSON-decoding result, or one of the
exception classes the source catches.  Because every exception class is
caught and turned into `None`, the embedded function is total and returns
an `Option`. -/

/-- Possible outcomes of the underlying `requests` call. -/
inductive IshodHTTP (α : Type) where
  | otvet (status : ℕ) (telo : Except String α)
  | timeout
  | connectionError
  | requestError (msg : String)
  | otherError (msg : String)

/-- `выполнить_запрос`: an unsupported method short-circuits to None before
any request; a response yields the decoded payload only on status 200
(404, 5xx and every other status fall through to None, as does a JSON
decode failure); every caught exception yields None. -/
def vypolnit_zapros {α : Type} (metod : String) (ishod : IshodHTTP α) : Option α :=
  if metod.toUpper = "GET" || metod.toUpper = "POST" then
    match ishod with
    | .otvet status telo =>
      if status = 200 then
        match telo with
        | .ok doc => some doc
        | .error _ => none
      else if status = 404 then none
      else if 500 ≤ status then none
      else none
    | .timeout => none
    | .connectionError => none
    | .requestError _ => none
    | .otherError _ => none
  else none

/-! ## Time-series extractor (`получить_последнее_значение`,
`src/data_sources/air_quality/open_meteo_fetcher.py` lines 41-73, and the
identical copy in the weather fetcher)

`datetime.fromisoformat` is external library code and is abstracted as a
parse function `String → Option τ`; the repository's own logic — the
emptiness and length guards, the `replace('Z', '+00:00')` preprocessing,
and the scan from the end skipping null values and unparsable stamps — is
embedded directly. -/

/-- Character-level body of Python `str.replace('Z', '+00:00')`: every
occurrence of `Z` becomes `+00:00`. -/
def zamenitZspisok : List Char → List Char
  | [] => []
  | c :: rest =>
    if c = 'Z' then [ '+', '0', '0', ':', '0', '0' ] ++ zamenitZspisok rest
    else c :: zamenitZspisok rest

/-- The `.replace('Z', '+00:00')` preprocessing applied before parsing. -/
def zamenitZ (s : String) : String := ⟨zamenitZspisok s.data⟩

/-- The scanning loop over the reversed zipped series: return the first
entry whose value is present and whose (Z-substituted) timestamp parses;
skip every other entry. -/
def najti_s_konca {τ : Type} (razbor : String → Option τ) :
    List (Option ℚ × String) → Option ℚ × Option τ
  | [] => (none, none)
  | (znachenie, metka) :: ostalnye =>
    match znachenie with
    | some v =>
      match razbor (zamenitZ metka) with
      | some t => (some v, some t)
      | none => najti_s_konca razbor ostalnye
    | none => najti_s_konca razbor ostalnye

/-- `получить_последнее_значение(временной_ряд, временные_метки)`. -/
def poluchit_poslednee_znachenie {τ : Type} (razbor : String → Option τ)
    (vremennoj_ryad : List (Option ℚ)) (vremennye_metki : List String) :
    Option ℚ × Option τ :=
  if vremennoj_ryad.isEmpty || vremennye_metki.isEmpty then (none, none)
  else if vremennoj_ryad.length ≠ vremennye_metki.length then (none, none)
  else najti_s_konca razbor ((vremennoj_ryad.zip vremennye_metki).reverse)

/-- An entry of the zipped series that the scan accepts: value present and
timestamp parsable after Z-substitution. -/
def popadanie {τ : Type} (razbor : String → Option τ) (p : Option ℚ × String) : Bool :=
  p.1.isSome && (razbor (zamenitZ p.2)).isSome

/-- The pair the scan produces from the entry it stops at (or the no-data
pair when it finds none). -/
def izvlech {τ : Type} (razbor : String → Option τ) :
    Option (Option ℚ × String) → Option ℚ × Option τ
  | some p => (p.1, razbor (zamenitZ p.2))
  | none => (none, none)

/-! ## Fetcher orchestrator (`запустить_все_сборщики`,
`src/data_sources/__init__.py` lines 11-57)

Each registered fetcher's end-to-end run either returns a result record
or raises; that behaviour is the `Except` argument.  The orchestrator
wraps each fetcher in its own failure boundary and always produces an
entry for both registered fetchers. -/

/-- The per-fetcher result record `{получено, сохранено, ошибки}`. -/
structure RezultatSborshika where
  polucheno : ℕ
  sohraneno : ℕ
  oshibki : List String
deriving DecidableEq, Repr

/-- The failure boundary around one fetcher: an exception becomes the
record `{получено: 0, сохранено: 0, ошибки: [str(e)]}`. -/
def obernut_sborshik (ishod : Except String RezultatSborshika) : RezultatSborshika :=
  match ishod with
  | .ok r => r
  | .error e => ⟨0, 0, [e]⟩

/-- `запустить_все_сборщики`, over the behaviours of the two registered
fetchers (air quality, then weather). -/
def zapustit_vse_sborshiki (vozduh pogoda : Except String RezultatSborshika) :
    List (String × RezultatSborshika) :=
  [("open_meteo_air_quality", obernut_sborshik vozduh),
   ("open_meteo_weather", obernut_sborshik pogoda)]

/-! ## Relational store

Dimension and fact rows as defined by the schema in `src/models.py`
(`SQL_SCHEMA`), with the serial id counters made explicit.  Row order in
each list is physical insertion order; `LIMIT 1` lookups take the first
match. -/

/-- A row of the `parameters` table. -/
structure Parametr where
  id : ℕ
  name : String
  category : String
deriving DecidableEq, Repr

/-- A row of the `locations` table. -/
structure Lokaciya where
  id : ℕ
  name : String
  latitude : ℚ
  longitude : ℚ
deriving DecidableEq, Repr

/-- A row of the `data_sources` table. -/
structure IstochnikDannyh where
  id : ℕ
  name : String
  url : Option String
  description : Option String
deriving DecidableEq, Repr

/-- A row of the `measurements` fact table.  Note the schema of the INSERT
in `создать_измерение` (`src/utils/measurements_logic.py` lines 88-92):
only (location_id, parameter_id, value, measured_at) are supplied;
`source_id` and `extra_data` are never written by the pipeline, and
`created_at` is the storage default (the same ingestion tick). -/
structure StrokaIzmereniya where
  id : ℕ
  location_id : ℕ
  parameter_id : ℕ
  value : ℚ
  measured_at : ℕ
  created_at : ℕ
deriving DecidableEq, Repr

/-- The relational store. -/
structure BazaDannyh where
  parameters : List Parametr
  locations : List Lokaciya
  data_sources : List IstochnikDannyh
  measurements : List StrokaIzmereniya
  next_location_id : ℕ
  next_source_id : ℕ
  next_measurement_id : ℕ
deriving DecidableEq, Repr

/-- Rounding to 5 decimal places, used both by Python's
`round(latitude, 5)` and by SQL's `ROUND(latitude::numeric, 5)` in
`найти_или_создать_локацию`.  (The two differ only in the direction of
exact half-way ties, which are immaterial here.) -/
def okruglit5 (q : ℚ) : ℚ := ((round (q * 100000) : ℤ) : ℚ) / 100000

/-! ## Persistence adapter (`src/data_sources/base_fetcher.py` and
`src/utils/measurements_logic.py`) -/

/-- `найти_parameter_id(название, категория)`
(`src/data_sources/base_fetcher.py` lines 89-124): lookup by name, and by
category as well when the category is truthy. -/
def najti_parameter_id (nazvanie kategoriya : PyVal) (db : BazaDannyh) : Option ℕ :=
  if py_truthy kategoriya then
    (db.parameters.find? (fun p =>
      nazvanie == PyVal.str p.name && kategoriya == PyVal.str p.category)).map Parametr.id
  else
    (db.parameters.find? (fun p => nazvanie == PyVal.str p.name)).map Parametr.id

/-- `найти_или_создать_источник(название, url, описание)`
(`src/data_sources/base_fetcher.py` lines 127-171): lookup by name,
insert on miss. -/
def najti_ili_sozdat_istochnik (nazvanie : String) (url opisanie : Option String)
    (db : BazaDannyh) : ℕ × BazaDannyh :=
  match db.data_sources.find? (fun i => i.name == nazvanie) with
  | some i => (i.id, db)
  | none =>
    let novyjId := db.next_source_id
    (novyjId,
     { db with
        data_sources := db.data_sources ++ [⟨novyjId, nazvanie, url, opisanie⟩],
        next_source_id := novyjId + 1 })

/-- The WHERE clause of the location lookup: the stored coordinates,
rounded to 5 decimals, match the rounded query coordinates. -/
def sovpadenie_koordinat (latitude longitude : ℚ) (l : Lokaciya) : Bool :=
  okruglit5 l.latitude == okruglit5 latitude && okruglit5 l.longitude == okruglit5 longitude

/-- `найти_или_создать_локацию(latitude, longitude, название)`
(`src/utils/measurements_logic.py` lines 11-63): lookup by
rounded-coordinate match (5 decimals, against the rounding of the stored
coordinates); on a miss, insert the UNROUNDED coordinates with a
synthesized name when none is given. -/
def najti_ili_sozdat_lokaciyu (latitude longitude : ℚ) (nazvanie : Option String)
    (db : BazaDannyh) : ℕ × BazaDannyh :=
  match db.locations.find? (sovpadenie_koordinat latitude longitude) with
  | some l => (l.id, db)
  | none =>
    let imya := nazvanie.getD ("Точка (" ++ toString (okruglit5 latitude) ++ ", " ++
      toString (okruglit5 longitude) ++ ")")
    let novyjId := db.next_location_id
    (novyjId,
     { db with
        locations := db.locations ++ [⟨novyjId, imya, latitude, longitude⟩],
        next_location_id := novyjId + 1 })

/-- The dict returned by `создать_измерение`. -/
structure SozdannoeIzmerenie where
  id : ℕ
  parameter_id : ℕ
  value : ℚ
  latitude : ℚ
  longitude : ℚ
  measured_at : ℕ
  created_at : ℕ
deriving DecidableEq, Repr

/-- `создать_измерение(parameter_id, value, latitude, longitude)`
(`src/utils/measurements_logic.py` lines 66-110).  These four are its ONLY
parameters.  It resolves/creates the location, takes
`текущее_время = datetime.utcnow()` (the ingestion tick, the `sejchas`
argument of the embedding), and inserts the fact row with
`measured_at = текущее_время`.  The storage constraint
`CHECK (value >= 0)` of `src/models.py` rejects a negative value, which
surfaces as a raised storage error. -/
def sozdat_izmerenie (parameter_id : ℕ) (value : ℚ) (latitude longitude : ℚ)
    (sejchas : ℕ) (db : BazaDannyh) : Except String (SozdannoeIzmerenie × BazaDannyh) :=
  let (location_id, db1) := najti_ili_sozdat_lokaciyu latitude longitude none db
  if value < 0 then
    .error "CheckViolation: new row violates check constraint valid_value"
  else
    let novyjId := db1.next_measurement_id
    let stroka : StrokaIzmereniya :=
      ⟨novyjId, location_id, parameter_id, value, sejchas, sejchas⟩
    .ok (⟨novyjId, parameter_id, value, latitude, longitude, sejchas, sejchas⟩,
         { db1 with
            measurements := db1.measurements ++ [stroka],
            next_measurement_id := novyjId + 1 })

/-- `валидировать_значение(value, название_параметра)`
(`src/data_sources/base_fetcher.py` lines 341-368): false for negative
values, values above 10^6, and unconvertible values. -/
def validirovat_znachenie (value : PyVal) (_nazvanie_parametra : String) : Bool :=
  match py_float value with
  | .ok z => if z < 0 then false else if z > 1000000 then false else true
  | .error _ => false

/-- The required fields checked by `сохранить_измерения`. -/
def obyazatelnye_polya : List String :=
  ["parameter_name", "category", "value", "latitude", "longitude"]

/-- The parameter list of `создать_измерение` as defined in
`src/utils/measurements_logic.py` lines 66-71. -/
def parametry_sozdat_izmerenie : List String :=
  ["parameter_id", "value", "latitude", "longitude"]

/-- The keyword-argument names at the call of `создать_измерение` inside
`сохранить_измерения` (`src/data_sources/base_fetcher.py` lines 254-262). -/
def klyuchi_vyzova_sozdat_izmerenie : List String :=
  ["parameter_id", "value", "latitude", "longitude", "source_id", "extra_data",
   "nazvanie_lokacii"]

/-- Python keyword-call semantics: a call binds iff every keyword names a
parameter of the callee (the callee has no `**kwargs`); otherwise the call
raises `TypeError` before the callee body runs. -/
def vyzov_dopustim (klyuchi parametry : List String) : Bool :=
  klyuchi.all (fun k => parametry.contains k)

/-- The result of processing one record inside the per-record try/except of
`сохранить_измерения`: the store afterwards, the contribution to the saved
counter and to the error list, and — when the processing got as far as the
`создать_измерение` call — the `(parameter_id, value, latitude, longitude)`
argument values bound at that call (Python evaluates the arguments before
the keyword-binding `TypeError` is raised). -/
structure RezultatShaga where
  db : BazaDannyh
  dobSohraneno : ℕ
  dobOshibki : List String
  vyzov : Option (ℕ × ℚ × ℚ × ℚ)
deriving Repr

/-- One iteration of the record loop of `сохранить_измерения`
(`src/data_sources/base_fetcher.py` lines 215-273): validate required
fields; resolve the parameter id (Python-falsy result is a per-record
error); build `extra_data` and the location name; convert value and
coordinates with `float()` (a `ValueError` is caught as a conversion
error, a `TypeError` as an unexpected error); finally attempt the
`создать_измерение` call.  The call's keyword set does not match the
callee's parameters, so in the source it raises `TypeError`, caught by the
blanket `except Exception` branch. -/
def obrabotat_izmerenie (idx : ℕ) (izm : Zapis) (_source_id : ℕ) (sejchas : ℕ)
    (db : BazaDannyh) : RezultatShaga :=
  let otsutstvuyushie := obyazatelnye_polya.filter (fun pole => (izm.lookup pole).isNone)
  if !otsutstvuyushie.isEmpty then
    ⟨db, 0, ["Измерение " ++ toString idx ++ ": отсутствуют поля " ++ toString otsutstvuyushie],
     none⟩
  else
    let parameterIdOpt :=
      najti_parameter_id ((izm.lookup "parameter_name").getD PyVal.pyNone)
        ((izm.lookup "category").getD PyVal.pyNone) db
    if parameterIdOpt.getD 0 = 0 then
      ⟨db, 0,
       ["Измерение " ++ toString idx ++ ": параметр " ++
        pokazat_pyval ((izm.lookup "parameter_name").getD PyVal.pyNone) ++ " не найден в БД"],
       none⟩
    else
      let parameter_id := parameterIdOpt.getD 0
      let _extra_data := (["external_id", "station_name", "wind_speed", "wind_direction",
          "humidity", "pressure"]).filterMap (fun k => (izm.lookup k).map (fun v => (k, v)))
      let _nazvanie_lokacii := izm.lookup "station_name"
      match py_float ((izm.lookup "value").getD PyVal.pyNone),
            py_float ((izm.lookup "latitude").getD PyVal.pyNone),
            py_float ((izm.lookup "longitude").getD PyVal.pyNone) with
      | .ok v, .ok la, .ok lo =>
        if vyzov_dopustim klyuchi_vyzova_sozdat_izmerenie parametry_sozdat_izmerenie then
          match sozdat_izmerenie parameter_id v la lo sejchas db with
          | .ok (_, db1) => ⟨db1, 1, [], some (parameter_id, v, la, lo)⟩
          | .error e =>
            ⟨db, 0, ["Измерение " ++ toString idx ++ ": неожиданная ошибка - " ++ e],
             some (parameter_id, v, la, lo)⟩
        else
          ⟨db, 0,
           ["Измерение " ++ toString idx ++
            ": неожиданная ошибка - создать_измерение() got an unexpected keyword argument source_id"],
           some (parameter_id, v, la, lo)⟩
      | .error (.valueError e), _, _ =>
        ⟨db, 0, ["Измерение " ++ toString idx ++ ": ошибка преобразования данных - " ++ e], none⟩
      | .error (.typeError e), _, _ =>
        ⟨db, 0, ["Измерение " ++ toString idx ++ ": неожиданная ошибка - " ++ e], none⟩
      | _, .error (.valueError e), _ =>
        ⟨db, 0, ["Измерение " ++ toString idx ++ ": ошибка преобразования данных - " ++ e], none⟩
      | _, .error (.typeError e), _ =>
        ⟨db, 0, ["Измерение " ++ toString idx ++ ": неожиданная ошибка - " ++ e], none⟩
      | _, _, .error (.valueError e) =>
        ⟨db, 0, ["Измерение " ++ toString idx ++ ": ошибка преобразования данных - " ++ e], none⟩
      | _, _, .error (.typeError e) =>
        ⟨db, 0, ["Измерение " ++ toString idx ++ ": неожиданная ошибка - " ++ e], none⟩

/-- `сохранить_измерения(список_измерений, название_источника, url_источника)`
(`src/data_sources/base_fetcher.py` lines 174-277): an empty batch
returns `(0, [])` before any storage access; otherwise the data source is
resolved/created once and the records are processed independently in
order. -/
def sohranit_izmereniya (spisok : List Zapis) (nazvanie_istochnika : String)
    (url_istochnika : Option String) (sejchas : ℕ) (db : BazaDannyh) :
    (ℕ × List String) × BazaDannyh :=
  if spisok.isEmpty then ((0, []), db)
  else
    let (source_id, db1) := najti_ili_sozdat_istochnik nazvanie_istochnika url_istochnika
      (some ("Внешний источник данных: " ++ nazvanie_istochnika)) db
    let itog := spisok.enum.foldl
      (fun (acc : BazaDannyh × ℕ × List String) para =>
        let shag := obrabotat_izmerenie para.1 para.2 source_id sejchas acc.1
        (shag.db, acc.2.1 + shag.dobSohraneno, acc.2.2 ++ shag.dobOshibki))
      (db1, 0, [])
    ((itog.2.1, itog.2.2), itog.1)

/-! ## Concrete fixtures for witnesses and counterexamples -/

/-- Store fixture holding the PM2.5 air-quality parameter and nothing else. -/
def dbPM25 : BazaDannyh :=
  ⟨[⟨1, "PM2.5", "качество_воздуха"⟩], [], [], [], 1, 1, 1⟩

/-- A fully valid PM2.5 record: every required field is present and the
parameter name resolves in `dbPM25`. -/
def zapisPM25 : Zapis :=
  [("parameter_name", .str "PM2.5"), ("category", .str "качество_воздуха"),
   ("value", .num 25.5), ("unit", .str "мкг/м³"),
   ("latitude", .num 55.7558), ("longitude", .num 37.6176),
   ("external_id", .str "station_123")]

/-- Store fixture holding the temperature weather parameter. -/
def dbPogoda : BazaDannyh :=
  ⟨[⟨1, "temperature", "погода"⟩], [], [], [], 1, 1, 1⟩

/-- A temperature record with a negative value (a normal winter reading)
and an observation timestamp distinct from the ingestion tick. -/
def zapisTemp : Zapis :=
  [("parameter_name", .str "temperature"), ("category", .str "погода"),
   ("value", .num (-5)), ("unit", .str "°C"),
   ("latitude", .num 55), ("longitude", .num 37),
   ("timestamp", .moment 100), ("station_name", .str "Центр")]

/-- Empty store fixture. -/
def dbPustaya : BazaDannyh := ⟨[], [], [], [], 1, 1, 1⟩

/-- A concrete timestamp parser accepting the three stamps used by the
extractor fixture (after Z-substitution), for witness runs. -/
def razbor0 : String → Option ℕ := fun s =>
  if s = "2024-01-01T00:00+00:00" then some 0
  else if s = "2024-01-01T01:00+00:00" then some 1
  else if s = "2024-01-01T02:00+00:00" then some 2
  else none

/-- Value series fixture: `hourly.pm10 = [10, null, 12]`. -/
def ryad0 : List (Option ℚ) := [some 10, none, some 12]

/-- Timestamp series fixture with trailing `Z` markers. -/
def metki0 : List String :=
  ["2024-01-01T00:00Z", "2024-01-01T01:00Z", "2024-01-01T02:00Z"]

/-- Store invariant on location rows: every serial id is below the counter
and the ids are pairwise distinct. -/
def invariant_lokacij (db : BazaDannyh) : Prop :=
  (∀ l ∈ db.locations, l.id < db.next_location_id) ∧
  (db.locations.map Lokaciya.id).Nodup

/-! # Theorems

## Wrap-loop lemmas for the value normalizer -/

theorem dobavit360_nonneg (v : ℚ) : 0 ≤ dobavit360 v := by
  induction v using dobavit360.induct with
  | case1 x hx ih => rw [dobavit360, if_pos hx]; exact ih
  | case2 x hx => rw [dobavit360, if_neg hx]; linarith

theorem dobavit360_mod (v : ℚ) : ∃ k : ℤ, dobavit360 v = v + 360 * k := by
  induction v using dobavit360.induct with
  | case1 x hx ih =>
    obtain ⟨k, hk⟩ := ih
    exact ⟨k + 1, by rw [dobavit360, if_pos hx, hk]; push_cast; ring⟩
  | case2 x hx => exact ⟨0, by rw [dobavit360, if_neg hx]; ring⟩

theorem vychest360_lt (v : ℚ) : vychest360 v < 360 := by
  induction v using vychest360.induct with
  | case1 x hx ih => rw [vychest360, if_pos hx]; exact ih
  | case2 x hx => rw [vychest360, if_neg hx]; linarith

theorem vychest360_nonneg (v : ℚ) (h : 0 ≤ v) : 0 ≤ vychest360 v := by
  induction v using vychest360.induct with
  | case1 x hx ih => rw [vychest360, if_pos hx]; exact ih (by linarith)
  | case2 x hx => rw [vychest360, if_neg hx]; exact h

theorem vychest360_mod (v : ℚ) : ∃ k : ℤ, vychest360 v = v + 360 * k := by
  induction v using vychest360.induct with
  | case1 x hx ih =>
    obtain ⟨k, hk⟩ := ih
    exact ⟨k - 1, by rw [vychest360, if_pos hx, hk]; push_cast; ring⟩
  | case2 x hx => exact ⟨0, by rw [vychest360, if_neg hx]; ring⟩

/-- Claim C4: for every wind-direction input `v`, normalization returns a
value in `[0, 360)` congruent to `v` modulo 360 (wrapping, never
clamping); in particular `-15` normalizes to `345`. -/
theorem C4_wind_direction_wraps :
    (∀ (v : ℚ) (dbp : String),
       0 ≤ normalizovat_znachenie v "wind_direction_10m" dbp ∧
       normalizovat_znachenie v "wind_direction_10m" dbp < 360 ∧
       ∃ k : ℤ, normalizovat_znachenie v "wind_direction_10m" dbp = v + 360 * k) ∧
    normalizovat_znachenie (-15) "wind_direction_10m" "wind_direction" = 345 := by
  have hvetv : ∀ (v : ℚ) (dbp : String),
      normalizovat_znachenie v "wind_direction_10m" dbp = vychest360 (dobavit360 v) := by
    intro v dbp
    simp [normalizovat_znachenie]
  constructor
  · intro v dbp
    rw [hvetv]
    refine ⟨vychest360_nonneg _ (dobavit360_nonneg v), vychest360_lt _, ?_⟩
    obtain ⟨k1, hk1⟩ := dobavit360_mod v
    obtain ⟨k2, hk2⟩ := vychest360_mod (dobavit360 v)
    exact ⟨k1 + k2, by rw [hk2, hk1]; push_cast; ring⟩
  · rw [hvetv]
    have h1 : dobavit360 (-15) = 345 := by
      rw [dobavit360, if_pos (by norm_num)]
      rw [show ((-15 : ℚ) + 360) = 345 by norm_num]
      rw [dobavit360, if_neg (by norm_num)]
    rw [h1, vychest360, if_neg (by norm_num)]

/-- Claim C8: for every non-circular, non-temperature parameter, value
normalization is `max v 0`: always non-negative, negative inputs clamp to
exactly 0, non-negative inputs pass unchanged. -/
theorem C8_clamp_nonneg :
    ∀ (v : ℚ) (p dbp : String), p ≠ "temperature_2m" → p ≠ "wind_direction_10m" →
      normalizovat_znachenie v p dbp = max v 0 ∧
      0 ≤ normalizovat_znachenie v p dbp ∧
      (v < 0 → normalizovat_znachenie v p dbp = 0) ∧
      (0 ≤ v → normalizovat_znachenie v p dbp = v) := by
  intro v p dbp h1 h2
  have hvetv : normalizovat_znachenie v p dbp = if v < 0 then 0 else v := by
    simp [normalizovat_znachenie, h1, h2]
  rw [hvetv]
  rcases lt_or_le v 0 with hv | hv
  · rw [if_pos hv]
    exact ⟨by rw [max_eq_right hv.le], le_refl 0, fun _ => rfl, fun h => absurd h (not_le.mpr hv)⟩
  · rw [if_neg (not_lt.mpr hv)]
    exact ⟨by rw [max_eq_left hv], hv, fun h => absurd h (not_lt.mpr hv), fun _ => rfl⟩

/-- Witness for C8 at the concrete parameter `precipitation` and raw value
`-3`. -/
theorem C8_clamp_nonneg_witness :
    normalizovat_znachenie (-3) "precipitation" "precipitation" = max (-3) 0 ∧
    0 ≤ normalizovat_znachenie (-3) "precipitation" "precipitation" ∧
    ((-3 : ℚ) < 0 → normalizovat_znachenie (-3) "precipitation" "precipitation" = 0) ∧
    ((0 : ℚ) ≤ -3 → normalizovat_znachenie (-3) "precipitation" "precipitation" = -3) :=
  C8_clamp_nonneg (-3) "precipitation" "precipitation" (by decide) (by decide)

/-! ## Time-series extractor lemmas and claim C3 -/

theorem najti_s_konca_eq_find? {τ : Type} (razbor : String → Option τ)
    (xs : List (Option ℚ × String)) :
    najti_s_konca razbor xs = izvlech razbor (xs.find? (popadanie razbor)) := by
  induction xs with
  | nil => rfl
  | cons p rest ih =>
    obtain ⟨zn, mk⟩ := p
    cases zn with
    | none =>
      have hp : popadanie razbor (none, mk) = false := by simp [popadanie]
      simpa [najti_s_konca, List.find?_cons, hp] using ih
    | some v =>
      cases hr : razbor (zamenitZ mk) with
      | none =>
        have hp : popadanie razbor (some v, mk) = false := by simp [popadanie, hr]
        simpa [najti_s_konca, hr, List.find?_cons, hp] using ih
      | some t =>
        have hp : popadanie razbor (some v, mk) = true := by simp [popadanie, hr]
        simp [najti_s_konca, hr, List.find?_cons, hp, izvlech]

theorem find?_reverse_last {α : Type} (p : α → Bool) (xs : List α) :
    ∀ (i : ℕ) (hi : i < xs.length), p xs[i] = true →
      (∀ (j : ℕ) (hj : j < xs.length), i < j → p xs[j] = false) →
      xs.reverse.find? p = some xs[i] := by
  induction xs using List.reverseRecOn with
  | nil => intro i hi; simp at hi
  | append_singleton l a ih =>
    intro i hi hhit hposle
    have hrev : (l ++ [a]).reverse = a :: l.reverse := by simp
    rw [hrev]
    by_cases hil : i = l.length
    · have hget : (l ++ [a])[i] = a := List.getElem_concat_length l a i hil hi
      rw [hget] at hhit ⊢
      rw [List.find?_cons, hhit]
    · have hil2 : i < l.length := by
        have := hi; simp only [List.length_append, List.length_cons, List.length_nil] at this
        omega
      have hja : l.length < (l ++ [a]).length := by simp
      have hpa : p a = false := by
        have h := hposle l.length hja (by omega)
        rwa [List.getElem_concat_length l a _ rfl hja] at h
      rw [List.find?_cons, hpa]
      have hget : (l ++ [a])[i] = l[i] := List.getElem_append_left hil2
      rw [hget] at hhit ⊢
      exact ih i hil2 hhit (fun j hj hij => by
        have hj2 : j < (l ++ [a]).length := by simp; omega
        have h := hposle j hj2 hij
        rwa [List.getElem_append_left hj] at h)

/-- Claim C3: on equal-length, non-empty parallel series, the extractor
returns the most recent entry whose value is present and whose timestamp
parses after the trailing-Z substitution, scanning from the end and
skipping unparsable stamps; on a length mismatch, an empty series, or no
such entry, it returns the explicit no-data pair `(None, None)`. -/
theorem C3_extractor_latest {τ : Type} (razbor : String → Option τ)
    (ryad : List (Option ℚ)) (metki : List String) :
    (∀ (i : ℕ) (hi : i < (ryad.zip metki).length),
        ryad.length = metki.length →
        popadanie razbor (ryad.zip metki)[i] = true →
        (∀ (j : ℕ) (hj : j < (ryad.zip metki).length), i < j →
            popadanie razbor (ryad.zip metki)[j] = false) →
        poluchit_poslednee_znachenie razbor ryad metki =
          (((ryad.zip metki)[i]).1, razbor (zamenitZ ((ryad.zip metki)[i]).2))) ∧
    ((ryad.length ≠ metki.length ∨ ryad = [] ∨ metki = [] ∨
        ∀ p ∈ ryad.zip metki, popadanie razbor p = false) →
      poluchit_poslednee_znachenie razbor ryad metki = (none, none)) := by
  constructor
  · intro i hi hlen hhit hposle
    have hr0 : ryad ≠ [] := by
      intro h; subst h; simp at hi
    have hm0 : metki ≠ [] := by
      intro h; subst h; simp at hi
    have hc1 : ¬((ryad.isEmpty || metki.isEmpty) = true) := by
      simp [List.isEmpty_iff, hr0, hm0]
    have hc2 : ¬(ryad.length ≠ metki.length) := fun h => h hlen
    unfold poluchit_poslednee_znachenie
    rw [if_neg hc1, if_neg hc2, najti_s_konca_eq_find?,
        find?_reverse_last (popadanie razbor) (ryad.zip metki) i hi hhit hposle]
    rfl
  · intro hcase
    unfold poluchit_poslednee_znachenie
    by_cases h1 : (ryad.isEmpty || metki.isEmpty) = true
    · rw [if_pos h1]
    · rw [if_neg h1]
      by_cases h2 : ryad.length ≠ metki.length
      · rw [if_pos h2]
      · rw [if_neg h2]
        have hnohit : ∀ p ∈ ryad.zip metki, popadanie razbor p = false := by
          rcases hcase with h | h | h | h
          · exact absurd h h2
          · simp [h] at h1
          · simp [h] at h1
          · exact h
        have hnone : (ryad.zip metki).reverse.find? (popadanie razbor) = none := by
          rw [List.find?_eq_none]
          intro x hx
          rw [List.mem_reverse] at hx
          simp [hnohit x hx]
        rw [najti_s_konca_eq_find?, hnone]
        rfl

/-- Witness for C3: series `[10, null, 12]` with trailing-Z stamps yields
the latest non-null pair `(12, t2)` (scenario A of the specification). -/
theorem C3_extractor_latest_witness :
    poluchit_poslednee_znachenie razbor0 ryad0 metki0 = (some 12, some 2) :=
  ((C3_extractor_latest razbor0 ryad0 metki0).1 2 (by decide) (by decide) (by decide)
    (by decide)).trans (by decide)

/-! ## Orchestrator claim C5 -/

/-- Claim C5: the orchestrator always yields an entry for both registered
fetchers; a fetcher that raises is converted into the record
`{получено: 0, сохранено: 0, ошибки: [str(e)]}` with a non-empty error
list carrying the exception message, and the other fetcher's entry is
exactly its own outcome end to end. -/
theorem C5_orchestrator_boundary :
    ∀ (vozduh pogoda : Except String RezultatSborshika),
      ((zapustit_vse_sborshiki vozduh pogoda).lookup "open_meteo_air_quality").isSome ∧
      ((zapustit_vse_sborshiki vozduh pogoda).lookup "open_meteo_weather").isSome ∧
      (∀ e, vozduh = .error e →
        (zapustit_vse_sborshiki vozduh pogoda).lookup "open_meteo_air_quality" =
          some ⟨0, 0, [e]⟩ ∧
        (zapustit_vse_sborshiki vozduh pogoda).lookup "open_meteo_weather" =
          some (obernut_sborshik pogoda)) ∧
      (∀ e, pogoda = .error e →
        (zapustit_vse_sborshiki vozduh pogoda).lookup "open_meteo_weather" =
          some ⟨0, 0, [e]⟩ ∧
        (zapustit_vse_sborshiki vozduh pogoda).lookup "open_meteo_air_quality" =
          some (obernut_sborshik vozduh)) ∧
      (∀ r, vozduh = .ok r →
        (zapustit_vse_sborshiki vozduh pogoda).lookup "open_meteo_air_quality" = some r) ∧
      (∀ r, pogoda = .ok r →
        (zapustit_vse_sborshiki vozduh pogoda).lookup "open_meteo_weather" = some r) := by
  intro vozduh pogoda
  refine ⟨rfl, rfl, ?_, ?_, ?_, ?_⟩
  · intro e he; subst he; exact ⟨rfl, rfl⟩
  · intro e he; subst he; exact ⟨rfl, rfl⟩
  · intro r hr; subst hr; rfl
  · intro r hr; subst hr; rfl

/-- Witness for C5: the weather fetcher raises `boom` while the air-quality
fetcher succeeds; both entries are present, the failing one is
`{0, 0, [boom]}`, the other is untouched. -/
theorem C5_orchestrator_boundary_witness :
    (zapustit_vse_sborshiki (.ok ⟨5, 4, []⟩) (.error "boom")).lookup "open_meteo_weather" =
      some ⟨0, 0, ["boom"]⟩ ∧
    (zapustit_vse_sborshiki (.ok ⟨5, 4, []⟩) (.error "boom")).lookup "open_meteo_air_quality" =
      some ⟨5, 4, []⟩ := by
  have h := C5_orchestrator_boundary (.ok ⟨5, 4, []⟩) (.error "boom")
  exact ⟨(h.2.2.2.1 "boom" rfl).1, h.2.2.2.2.1 ⟨5, 4, []⟩ rfl⟩

/-! ## HTTP client claim C9 -/

/-- Claim C9: the fetch client returns a decoded payload only on status
exactly 200; every other status (201 and 204 included), every modelled
exception (timeout, connection failure, request error, JSON decode
failure, any other exception), and every unsupported method yield `None`;
the embedded function is total, i.e. no exception escapes to the caller. -/
theorem C9_http_client :
    ∀ (α : Type) (metod : String),
      (∀ (ishod : IshodHTTP α) (doc : α),
          vypolnit_zapros metod ishod = some doc →
          ishod = IshodHTTP.otvet 200 (Except.ok doc)) ∧
      (∀ (status : ℕ) (telo : Except String α), status ≠ 200 →
          vypolnit_zapros metod (IshodHTTP.otvet status telo) = none) ∧
      (∀ e : String, vypolnit_zapros metod (IshodHTTP.otvet 200 (Except.error e) : IshodHTTP α) = none) ∧
      vypolnit_zapros metod (IshodHTTP.timeout : IshodHTTP α) = none ∧
      vypolnit_zapros metod (IshodHTTP.connectionError : IshodHTTP α) = none ∧
      (∀ s, vypolnit_zapros metod (IshodHTTP.requestError s : IshodHTTP α) = none) ∧
      (∀ s, vypolnit_zapros metod (IshodHTTP.otherError s : IshodHTTP α) = none) ∧
      (metod.toUpper ≠ "GET" → metod.toUpper ≠ "POST" →
        ∀ ishod : IshodHTTP α, vypolnit_zapros metod ishod = none) := by
  intro α metod
  by_cases hm : (metod.toUpper = "GET" || metod.toUpper = "POST") = true
  · refine ⟨?_, ?_, ?_, ?_, ?_, ?_, ?_, ?_⟩
    · intro ishod doc h
      cases ishod with
      | otvet status telo =>
        by_cases h200 : status = 200
        · subst h200
          cases telo with
          | ok d => simp [vypolnit_zapros, hm] at h; rw [h]
          | error e => simp [vypolnit_zapros, hm] at h
        · simp [vypolnit_zapros, hm, h200] at h
      | timeout => simp [vypolnit_zapros, hm] at h
      | connectionError => simp [vypolnit_zapros, hm] at h
      | requestError s => simp [vypolnit_zapros, hm] at h
      | otherError s => simp [vypolnit_zapros, hm] at h
    · intro status telo h200
      simp only [vypolnit_zapros, hm, if_true, if_neg h200]
      split_ifs <;> rfl
    · intro e
      simp [vypolnit_zapros, hm]
    · simp [vypolnit_zapros, hm]
    · simp [vypolnit_zapros, hm]
    · intro s; simp [vypolnit_zapros, hm]
    · intro s; simp [vypolnit_zapros, hm]
    · intro hg hp
      exfalso
      rw [Bool.or_eq_true, decide_eq_true_iff, decide_eq_true_iff] at hm
      rcases hm with h | h
      · exact hg h
      · exact hp h
  · have hneg : ∀ ishod : IshodHTTP α, vypolnit_zapros metod ishod = none := by
      intro ishod
      unfold vypolnit_zapros
      rw [if_neg hm]
    refine ⟨?_, fun status telo _ => hneg _, fun e => hneg _, hneg _, hneg _,
      fun s => hneg _, fun s => hneg _, fun _ _ => hneg⟩
    intro ishod doc h
    rw [hneg ishod] at h
    exact absurd h (by simp)

/-- Witness for C9: a 201 response on a well-formed GET yields `None`
even though the payload decodes. -/
theorem C9_http_client_witness :
    vypolnit_zapros "GET" (IshodHTTP.otvet 201 (Except.ok (7 : ℕ))) = none :=
  (C9_http_client ℕ "GET").2.1 201 (Except.ok 7) (by decide)

/-! ## Empty-batch claim C10 -/

/-- Claim C10: `сохранить_измерения` on the empty record list returns
`(0, [])` and leaves the entire store — the `data_sources` table
included — untouched: the empty-list guard fires before the data-source
lookup/creation. -/
theorem C10_empty_batch_frame :
    ∀ (nazvanie : String) (url : Option String) (sejchas : ℕ) (db : BazaDannyh),
      sohranit_izmereniya [] nazvanie url sejchas db = ((0, []), db) ∧
      (sohranit_izmereniya [] nazvanie url sejchas db).2.data_sources = db.data_sources := by
  intro nazvanie url sejchas db
  exact ⟨rfl, rfl⟩

/-! ## Batch persistence claim C1 -/

/-- Claim C1 (code bug): a batch of one fully valid record — every
required field present, the parameter name resolving in the store —
yields `saved = 0` with one error, not `saved = 1` with no errors: the
call of `создать_измерение` inside `сохранить_измерения` passes the
keyword arguments `source_id`, `extra_data` and `название_локации`,
which the callee (whose parameters are exactly
`parameter_id, value, latitude, longitude`) does not accept, so every
record fails with a `TypeError` captured by the per-record
`except Exception` handler. -/
theorem C1_persist_batch_typeerror :
    (sohranit_izmereniya [zapisPM25] "Test API" none 0 dbPM25).1 =
      (0, ["Измерение 0: неожиданная ошибка - создать_измерение() got an unexpected keyword argument source_id"]) ∧
    (sohranit_izmereniya [zapisPM25] "Test API" none 0 dbPM25).1.1 ≠ 1 := by
  exact ⟨by decide, by decide⟩

/-! ## Persistence-adapter frame lemma and ingestion-time claim C2 -/

theorem najti_lokaciyu_measurements (la lo : ℚ) (n : Option String) (db : BazaDannyh) :
    (najti_ili_sozdat_lokaciyu la lo n db).2.measurements = db.measurements := by
  unfold najti_ili_sozdat_lokaciyu
  cases hfind : db.locations.find? (sovpadenie_koordinat la lo) with
  | some l => rfl
  | none => rfl

/-- Claim C2 (code bug): every fact row inserted by `создать_измерение`
carries `measured_at` equal to the ingestion tick (`datetime.utcnow()`
taken inside the function), for all inputs whatsoever: the function has
no timestamp parameter, and `сохранить_измерения` never forwards the
record's observation `timestamp`, so the stored `measured_at` cannot
equal the observation time except by coincidence. -/
theorem C2_measured_at_is_ingestion_time :
    ∀ (parameter_id : ℕ) (value latitude longitude : ℚ) (sejchas : ℕ) (db : BazaDannyh),
      0 ≤ value →
      ∃ rez db2,
        sozdat_izmerenie parameter_id value latitude longitude sejchas db =
          Except.ok (rez, db2) ∧
        rez.measured_at = sejchas ∧
        ∀ stroka ∈ db2.measurements,
          stroka ∈ db.measurements ∨ stroka.measured_at = sejchas := by
  intro pid v la lo sejchas db hv
  unfold sozdat_izmerenie
  rcases hL : najti_ili_sozdat_lokaciyu la lo none db with ⟨lid, db1⟩
  have hm : db1.measurements = db.measurements := by
    have h := najti_lokaciyu_measurements la lo none db
    rw [hL] at h
    exact h
  dsimp only
  rw [if_neg (not_lt.mpr hv)]
  refine ⟨_, _, rfl, rfl, ?_⟩
  intro stroka hs
  simp only [List.mem_append, List.mem_singleton] at hs
  rcases hs with hs | hs
  · left; rwa [hm] at hs
  · right; rw [hs]

/-- Witness for C2 at a concrete insert: ingestion tick 200, while the
fixture record's observation timestamp is 100. -/
theorem C2_measured_at_is_ingestion_time_witness :
    ∃ rez db2,
      sozdat_izmerenie 1 25 55 37 200 dbPustaya = Except.ok (rez, db2) ∧
      rez.measured_at = 200 ∧
      ∀ stroka ∈ db2.measurements,
        stroka ∈ dbPustaya.measurements ∨ stroka.measured_at = 200 :=
  C2_measured_at_is_ingestion_time 1 25 55 37 200 dbPustaya (by norm_num)

/-! ## Non-negativity claim C6 -/

/-- Counterexample to claim C6: a temperature record with value `-5`
passes the normalizer unchanged (`temperature_2m` branch) and reaches the
measurement-creation call with the negative value bound as the `value`
argument — no validation rejected the record before the insert attempt. -/
theorem C6_counterexample_negative_reaches_insert :
    normalizovat_znachenie (-5) "temperature_2m" "temperature" = -5 ∧
    (obrabotat_izmerenie 0 zapisTemp 1 200 dbPogoda).vyzov = some (1, -5, 55, 37) ∧
    ((-5 : ℚ) < 0) := by
  refine ⟨rfl, by decide, by norm_num⟩

/-- Claim C6 amended: no non-negativity validation happens in the
persistence path.  Whenever a record's processing reaches the
measurement-creation call, the bound `value` argument is exactly the
`float()` of the record's `value` field, whatever its sign; and the
repository's `валидировать_значение` — which would reject a negative
value — is never consulted (it appears nowhere in
`сохранить_измерения`, as the embedding shows). -/
theorem C6_amended_value_forwarded_unchanged :
    (∀ (idx : ℕ) (izm : Zapis) (sid sejchas : ℕ) (db : BazaDannyh)
        (p : ℕ) (v la lo : ℚ),
        (obrabotat_izmerenie idx izm sid sejchas db).vyzov = some (p, v, la, lo) →
        py_float ((izm.lookup "value").getD PyVal.pyNone) = Except.ok v) ∧
    validirovat_znachenie (PyVal.num (-5)) "temperature" = false := by
  constructor
  · intro idx izm sid sejchas db p v la lo h
    cases hpt : (obyazatelnye_polya.filter (fun pole => (izm.lookup pole).isNone)).isEmpty with
    | false => simp [obrabotat_izmerenie, hpt] at h
    | true =>
      by_cases hpid :
          (najti_parameter_id ((izm.lookup "parameter_name").getD PyVal.pyNone)
            ((izm.lookup "category").getD PyVal.pyNone) db).getD 0 = 0
      · simp [obrabotat_izmerenie, hpt, hpid] at h
      · cases hv1 : py_float ((izm.lookup "value").getD PyVal.pyNone) with
        | error e1 =>
          cases e1 with
          | valueError m => simp [obrabotat_izmerenie, hpt, hpid, hv1] at h
          | typeError m => simp [obrabotat_izmerenie, hpt, hpid, hv1] at h
        | ok q1 =>
          cases hv2 : py_float ((izm.lookup "latitude").getD PyVal.pyNone) with
          | error e2 =>
            cases e2 with
            | valueError m => simp [obrabotat_izmerenie, hpt, hpid, hv1, hv2] at h
            | typeError m => simp [obrabotat_izmerenie, hpt, hpid, hv1, hv2] at h
          | ok q2 =>
            cases hv3 : py_float ((izm.lookup "longitude").getD PyVal.pyNone) with
            | error e3 =>
              cases e3 with
              | valueError m => simp [obrabotat_izmerenie, hpt, hpid, hv1, hv2, hv3] at h
              | typeError m => simp [obrabotat_izmerenie, hpt, hpid, hv1, hv2, hv3] at h
            | ok q3 =>
              have hvd : vyzov_dopustim klyuchi_vyzova_sozdat_izmerenie
                  parametry_sozdat_izmerenie = false := by decide
              simp [obrabotat_izmerenie, hpt, hpid, hv1, hv2, hv3, hvd] at h
              rw [h.2.1]
  · decide

/-- Witness for the amended C6 at the concrete temperature record: the
value forwarded to the creation call is exactly `-5`. -/
theorem C6_amended_value_forwarded_unchanged_witness :
    py_float ((zapisTemp.lookup "value").getD PyVal.pyNone) = Except.ok (-5) :=
  C6_amended_value_forwarded_unchanged.1 0 zapisTemp 1 200 dbPogoda 1 (-5) 55 37 (by decide)

/-! ## Location deduplication claim C7 -/

theorem sovpadenie_koordinat_iff (la lo : ℚ) (l : Lokaciya) :
    sovpadenie_koordinat la lo l = true ↔
      (okruglit5 l.latitude = okruglit5 la ∧ okruglit5 l.longitude = okruglit5 lo) := by
  simp [sovpadenie_koordinat]

theorem sovpadenie_koordinat_congr {la1 lo1 la2 lo2 : ℚ}
    (hla : okruglit5 la1 = okruglit5 la2) (hlo : okruglit5 lo1 = okruglit5 lo2) :
    sovpadenie_koordinat la1 lo1 = sovpadenie_koordinat la2 lo2 := by
  funext l
  simp [sovpadenie_koordinat, hla, hlo]

theorem najti_lokaciyu_found {la lo : ℚ} {n : Option String} {db : BazaDannyh} {l : Lokaciya}
    (hf : db.locations.find? (sovpadenie_koordinat la lo) = some l) :
    najti_ili_sozdat_lokaciyu la lo n db = (l.id, db) := by
  simp [najti_ili_sozdat_lokaciyu, hf]

theorem najti_lokaciyu_created {la lo : ℚ} {n : Option String} {db : BazaDannyh}
    (hf : db.locations.find? (sovpadenie_koordinat la lo) = none) :
    najti_ili_sozdat_lokaciyu la lo n db =
      (db.next_location_id,
       { db with
          locations := db.locations ++
            [⟨db.next_location_id,
              n.getD ("Точка (" ++ toString (okruglit5 la) ++ ", " ++
                toString (okruglit5 lo) ++ ")"),
              la, lo⟩],
          next_location_id := db.next_location_id + 1 }) := by
  simp [najti_ili_sozdat_lokaciyu, hf]

/-- Claim C7: under the store invariant (serial ids below the counter and
pairwise distinct), two successive `resolve_or_create_location` calls
return the same id exactly when the query coordinates агree after rounding
to 5 decimals: equal rounded coordinates give the same id (the second
call finds the row the first call found or created, the created row
storing the unrounded coordinates), differing rounded coordinates give
different ids. -/
theorem C7_location_dedup :
    ∀ (db : BazaDannyh) (la1 lo1 : ℚ) (n1 : Option String) (la2 lo2 : ℚ) (n2 : Option String),
      invariant_lokacij db →
      ((okruglit5 la1 = okruglit5 la2 ∧ okruglit5 lo1 = okruglit5 lo2) →
        (najti_ili_sozdat_lokaciyu la1 lo1 n1 db).1 =
          (najti_ili_sozdat_lokaciyu la2 lo2 n2 (najti_ili_sozdat_lokaciyu la1 lo1 n1 db).2).1) ∧
      (¬(okruglit5 la1 = okruglit5 la2 ∧ okruglit5 lo1 = okruglit5 lo2) →
        (najti_ili_sozdat_lokaciyu la1 lo1 n1 db).1 ≠
          (najti_ili_sozdat_lokaciyu la2 lo2 n2 (najti_ili_sozdat_lokaciyu la1 lo1 n1 db).2).1) := by
  intro db la1 lo1 n1 la2 lo2 n2 hinv
  obtain ⟨hbound, hnodup⟩ := hinv
  constructor
  · rintro ⟨hla, hlo⟩
    have hpred := sovpadenie_koordinat_congr hla hlo
    cases hf1 : db.locations.find? (sovpadenie_koordinat la1 lo1) with
    | some l =>
      rw [najti_lokaciyu_found hf1]
      have hf2 : db.locations.find? (sovpadenie_koordinat la2 lo2) = some l := by
        rw [← hpred]; exact hf1
      rw [najti_lokaciyu_found hf2]
    | none =>
      have hnov1 : sovpadenie_koordinat la1 lo1
          (⟨db.next_location_id,
            n1.getD ("Точка (" ++ toString (okruglit5 la1) ++ ", " ++
              toString (okruglit5 lo1) ++ ")"), la1, lo1⟩ : Lokaciya) = true := by
        rw [sovpadenie_koordinat_iff]
        exact ⟨rfl, rfl⟩
      rw [najti_lokaciyu_created hf1]
      dsimp only
      have hf2 : ({ db with
          locations := db.locations ++
            [⟨db.next_location_id,
              n1.getD ("Точка (" ++ toString (okruglit5 la1) ++ ", " ++
                toString (okruglit5 lo1) ++ ")"), la1, lo1⟩],
          next_location_id := db.next_location_id + 1 } : BazaDannyh).locations.find?
            (sovpadenie_koordinat la2 lo2) =
          some ⟨db.next_location_id,
            n1.getD ("Точка (" ++ toString (okruglit5 la1) ++ ", " ++
              toString (okruglit5 lo1) ++ ")"), la1, lo1⟩ := by
        show (db.locations ++ [_]).find? _ = _
        rw [List.find?_append, ← hpred, hf1]
        simp [List.find?_cons, hnov1]
      rw [najti_lokaciyu_found hf2]
  · intro hneq
    cases hf1 : db.locations.find? (sovpadenie_koordinat la1 lo1) with
    | some l1 =>
      rw [najti_lokaciyu_found hf1]
      have hl1mem : l1 ∈ db.locations := List.mem_of_find?_eq_some hf1
      have hl1p : sovpadenie_koordinat la1 lo1 l1 = true := List.find?_some hf1
      cases hf2 : db.locations.find? (sovpadenie_koordinat la2 lo2) with
      | some l2 =>
        rw [najti_lokaciyu_found hf2]
        have hl2mem : l2 ∈ db.locations := List.mem_of_find?_eq_some hf2
        have hl2p : sovpadenie_koordinat la2 lo2 l2 = true := List.find?_some hf2
        intro hid
        have hll : l1 = l2 := List.inj_on_of_nodup_map hnodup hl1mem hl2mem hid
        obtain ⟨ha1, ho1⟩ := (sovpadenie_koordinat_iff la1 lo1 l1).mp hl1p
        obtain ⟨ha2, ho2⟩ := (sovpadenie_koordinat_iff la2 lo2 l2).mp hl2p
        rw [← hll] at ha2 ho2
        exact hneq ⟨ha1 ▸ ha2, ho1 ▸ ho2⟩
      | none =>
        rw [najti_lokaciyu_created hf2]
        exact Nat.ne_of_lt (hbound l1 hl1mem)
    | none =>
      have hnovf : sovpadenie_koordinat la2 lo2
          (⟨db.next_location_id,
            n1.getD ("Точка (" ++ toString (okruglit5 la1) ++ ", " ++
              toString (okruglit5 lo1) ++ ")"), la1, lo1⟩ : Lokaciya) = false := by
        rw [Bool.eq_false_iff]
        intro hc
        obtain ⟨ha, ho⟩ := (sovpadenie_koordinat_iff la2 lo2 _).mp hc
        exact hneq ⟨ha, ho⟩
      rw [najti_lokaciyu_created hf1]
      dsimp only
      cases hf2 : db.locations.find? (sovpadenie_koordinat la2 lo2) with
      | some l2 =>
        have hl2mem : l2 ∈ db.locations := List.mem_of_find?_eq_some hf2
        have hf2ext : ({ db with
            locations := db.locations ++
              [⟨db.next_location_id,
                n1.getD ("Точка (" ++ toString (okruglit5 la1) ++ ", " ++
                  toString (okruglit5 lo1) ++ ")"), la1, lo1⟩],
            next_location_id := db.next_location_id + 1 } : BazaDannyh).locations.find?
              (sovpadenie_koordinat la2 lo2) = some l2 := by
          show (db.locations ++ [_]).find? _ = _
          rw [List.find?_append, hf2]
          rfl
        rw [najti_lokaciyu_found hf2ext]
        exact (Nat.ne_of_lt (hbound l2 hl2mem)).symm
      | none =>
        have hf2ext : ({ db with
            locations := db.locations ++
              [⟨db.next_location_id,
                n1.getD ("Точка (" ++ toString (okruglit5 la1) ++ ", " ++
                  toString (okruglit5 lo1) ++ ")"), la1, lo1⟩],
            next_location_id := db.next_location_id + 1 } : BazaDannyh).locations.find?
              (sovpadenie_koordinat la2 lo2) = none := by
          show (db.locations ++ [_]).find? _ = _
          rw [List.find?_append, hf2]
          simp [List.find?_cons, hnovf]
        rw [najti_lokaciyu_created hf2ext]
        dsimp only
        omega

/-- Witness for C7 at concrete coordinates differing only in the 8th
decimal place: both calls on an initially empty store return the same
location id. -/
theorem C7_location_dedup_witness :
    (najti_ili_sozdat_lokaciyu 55.7558 37.6176 none dbPustaya).1 =
      (najti_ili_sozdat_lokaciyu 55.75580004 37.6176 none
        (najti_ili_sozdat_lokaciyu 55.7558 37.6176 none dbPustaya).2).1 := by
  have hinv : invariant_lokacij dbPustaya := by
    constructor
    · intro l hl; simp [dbPustaya] at hl
    · simp [dbPustaya]
  exact (C7_location_dedup dbPustaya 55.7558 37.6176 none 55.75580004 37.6176 none hinv).1
    ⟨by norm_num [okruglit5, round_eq], rfl⟩

end EcoMonitor
